import Mathlib

/-!
Verification of the WAP (Write-Audit-Publish) social-media ingestion workflow
(`wap_social_media_ingestion.py`): the tiered data-quality gate
(`run_data_quality_checks`) and the orchestrator (`wap_ingest`).

Modelling conventions:
* SQL query results are abstracted into a `QueryEnv`: for each column the
  store reports a null count, an optional min/max, and a negative-value
  count, plus the table row count.  Every audit query is read-only, so the
  environment is fixed for one audit run.
* Python float percentages are modelled as rationals (`ℚ`); the source
  computes `(null_count / row_count) * 100` and compares with `> 5`.
* The formatted failure/warning message strings are abstracted into a
  `Finding` inductive carrying the same data the format strings interpolate
  (column name, counts, bounds, percentage).
* Python exceptions become explicit `Except`/error values; the external
  `bauplan.Client` becomes an oracle (`ClientSpec`) fixing the outcome of
  each remote call, and the orchestrator additionally returns the trace of
  client calls it issued, so that "never calls merge"-style claims are
  statements about the trace.
-/

namespace Wap

/-- Tier 1 (critical) columns, in declaration order (source lines 87-91). -/
def tier1_columns : List String :=
  ["user_id", "user_engagement_score", "time_on_feed_per_day"]

/-- Tier 2 (important) columns, in declaration order (source lines 112-116). -/
def tier2_columns : List String :=
  ["perceived_stress_score", "self_reported_happiness", "age"]

/-- Tier 3 (advisory) columns, in declaration order (source lines 142-147). -/
def tier3_columns : List String :=
  ["daily_active_minutes_instagram", "sessions_per_day",
   "followers_count", "following_count"]

/-- Range checks `(column, min_val, max_val)` in declaration order
(source lines 169-174). -/
def range_checks : List (String × ℚ × ℚ) :=
  [("user_engagement_score", 0, 10), ("age", 13, 120),
   ("perceived_stress_score", 0, 40), ("self_reported_happiness", 1, 10)]

/-- Non-negativity checks, in declaration order (source lines 200-207). -/
def non_negative_columns : List String :=
  ["time_on_feed_per_day", "time_on_reels_per_day",
   "daily_active_minutes_instagram", "sessions_per_day",
   "followers_count", "likes_given_per_day"]

/-- Abstraction of the read-only SQL results the audit queries obtain from the
store: `COUNT(*)`, per-column `COUNT(*) - COUNT(col)`, per-column
`MIN(col)/MAX(col)` (null on an all-null column), and per-column
`COUNT(*) WHERE col < 0`. -/
structure QueryEnv where
  rowCount : Nat
  nullCount : String → Nat
  minV : String → Option ℚ
  maxV : String → Option ℚ
  negCount : String → Nat

/-- One critical failure or warning entry, carrying the data that the source
interpolates into its message string. -/
inductive Finding where
  | rowCountLow (row_count min_rows : Nat)
  | nullValues (col : String) (null_count : Nat)
  | nullPct (col : String) (null_count : Nat) (pct : ℚ)
  | outOfRange (col : String) (lo hi mn mx : ℚ)
  | negativeValues (col : String) (neg_count : Nat)
  deriving DecidableEq, Repr

/-- The null percentage computed at source lines 127 and 158:
`(null_count / row_count) * 100`. -/
def nullPctOf (null_count row_count : Nat) : ℚ :=
  ((null_count : ℚ) / (row_count : ℚ)) * 100

/-- Mirror of the `DataQualityResult` dataclass (source lines 20-31);
`null_summary` keeps the dict's insertion order as an association list. -/
structure DataQualityResult where
  passed : Bool
  total_checks : Nat
  passed_checks : Nat
  failed_checks : Nat
  critical_failures : List Finding
  warnings : List Finding
  row_count : Nat
  null_summary : List (String × Nat)
  deriving DecidableEq, Repr

/-- `run_data_quality_checks` (source lines 34-267).  Each source loop becomes
a `foldl` that appends to the accumulated failure/warning lists exactly as the
imperative code does; checks run unconditionally in declaration order. -/
def run_data_quality_checks (env : QueryEnv) (min_rows : Nat) :
    DataQualityResult :=
  let row_count := env.rowCount
  -- CHECK 1: row count (lines 66-80)
  let critical_failures : List Finding :=
    if row_count < min_rows then [.rowCountLow row_count min_rows] else []
  -- CHECK 2: tier 1 nulls, any null is critical (lines 93-105)
  let critical_failures := tier1_columns.foldl
    (fun acc col =>
      if env.nullCount col > 0 then
        acc ++ [.nullValues col (env.nullCount col)]
      else acc)
    critical_failures
  -- CHECK 3: tier 2 nulls, > 5% escalates to critical, else warning
  -- (lines 118-135)
  let cw := tier2_columns.foldl
    (fun (cw : List Finding × List Finding) col =>
      if env.nullCount col > 0 then
        let pct := nullPctOf (env.nullCount col) row_count
        if pct > 5 then
          (cw.1 ++ [.nullPct col (env.nullCount col) pct], cw.2)
        else
          (cw.1, cw.2 ++ [.nullPct col (env.nullCount col) pct])
      else cw)
    (critical_failures, ([] : List Finding))
  let critical_failures := cw.1
  let warnings := cw.2
  -- CHECK 4: tier 3 nulls, warnings only (lines 149-162)
  let warnings := tier3_columns.foldl
    (fun acc col =>
      if env.nullCount col > 0 then
        acc ++ [.nullPct col (env.nullCount col)
                  (nullPctOf (env.nullCount col) row_count)]
      else acc)
    warnings
  -- CHECK 5: value ranges, skipped when min or max is null (lines 176-193)
  let critical_failures := range_checks.foldl
    (fun acc rc =>
      match env.minV rc.1, env.maxV rc.1 with
      | some mn, some mx =>
        if mn < rc.2.1 ∨ mx > rc.2.2 then
          acc ++ [.outOfRange rc.1 rc.2.1 rc.2.2 mn mx]
        else acc
      | _, _ => acc)
    critical_failures
  -- CHECK 6: negative values (lines 209-220)
  let critical_failures := non_negative_columns.foldl
    (fun acc col =>
      if env.negCount col > 0 then
        acc ++ [.negativeValues col (env.negCount col)]
      else acc)
    critical_failures
  -- SUMMARY (lines 225-267)
  let total_checks :=
    1 + tier1_columns.length + tier2_columns.length + tier3_columns.length
      + range_checks.length + non_negative_columns.length
  let failed_checks := critical_failures.length
  let passed_checks := total_checks - failed_checks
  let null_summary :=
    (tier1_columns ++ tier2_columns ++ tier3_columns).map
      (fun col => (col, env.nullCount col))
  { passed := critical_failures.length == 0
    total_checks := total_checks
    passed_checks := passed_checks
    failed_checks := failed_checks
    critical_failures := critical_failures
    warnings := warnings
    row_count := row_count
    null_summary := null_summary }

/-- One audit query, identifying which `client.query` call of
`run_data_quality_checks` it is. -/
inductive QCheck where
  | rowCountQ
  | nullQ (col : String)
  | minMaxQ (col : String)
  | negQ (col : String)
  deriving DecidableEq, Repr

/-- The read-only queries `run_data_quality_checks` issues, one per loop
iteration, unconditionally and in declaration order (source lines 67, 94,
119, 150, 177, 210).  The sequence does not depend on any query result:
the engine never short-circuits. -/
def audit_queries : List QCheck :=
  [.rowCountQ] ++ tier1_columns.map .nullQ ++ tier2_columns.map .nullQ
    ++ tier3_columns.map .nullQ ++ range_checks.map (fun rc => .minMaxQ rc.1)
    ++ non_negative_columns.map .negQ

/-- A remote call to the `bauplan.Client`, as issued by `wap_ingest`. -/
inductive Op where
  | hasBranch (b : String)
  | createBranch (b fromRef : String)
  | createNamespace (ns b : String)
  | hasTable (t ns b : String)
  | createTable (t ns b : String)
  | importData (t ns b : String)
  | query (q : QCheck)
  | mergeBranch (src into : String)
  | deleteBranch (b : String)
  deriving DecidableEq, Repr

/-- Whether a client call mutates store state (branch/namespace/table/data),
as opposed to the read-only existence checks and queries. -/
def Op.isMutation : Op → Bool
  | .createBranch _ _ => true
  | .createNamespace _ _ => true
  | .createTable _ _ _ => true
  | .importData _ _ _ => true
  | .mergeBranch _ _ => true
  | .deleteBranch _ => true
  | _ => false

/-- The Python exceptions `wap_ingest` can raise, one constructor per raise
site / failing client call, so that distinct errors stay distinguishable. -/
inductive WapError where
  | collision
  | branchCreateFailed
  | namespaceCreateFailed
  | preexistingTable
  | tableCreateFailed
  | importFailed
  | qualityGate (failed_checks : Nat)
  | mergeFailed
  | deleteFailed
  deriving DecidableEq, Repr

/-- Outcome of the `client.create_namespace` call (source lines 318-325):
success, an "already exists" error (swallowed), or any other error
(re-raised). -/
inductive NsCreateResult where
  | ok
  | errAlreadyExists
  | errOther
  deriving DecidableEq, Repr

/-- Oracle for the external `bauplan.Client`: fixes the store state observed
and the outcome of each remote call in one run of `wap_ingest`. -/
structure ClientSpec where
  /-- `client.has_branch(branch_name)` before creation (line 311). -/
  branchExists0 : Bool
  createBranchOk : Bool
  nsCreate : NsCreateResult
  /-- `client.has_table(...)` on the fresh branch (line 328). -/
  tableExists : Bool
  createTableOk : Bool
  importOk : Bool
  /-- Results of the read-only audit queries. -/
  env : QueryEnv
  mergeOk : Bool
  /-- Outcome of `client.delete_branch(branch_name)` calls. -/
  deleteOk : Bool

/-- Result of one `wap_ingest` run: the trace of client calls, the first
exception raised inside the `try` block (if any), the value returned or the
exception that finally propagates to the caller, and whether the isolation
branch still exists on the store afterwards. -/
structure RunResult where
  trace : List Op
  primaryError : Option WapError
  outcome : Except WapError (String × Bool × Option DataQualityResult)
  branchExistsEnd : Bool
  deriving Repr

/-- The branch identifier derived at source line 299:
`f"{username}.wap_{table_name}_{int(datetime.now().timestamp())}"`. -/
def wapBranchName (username table_name : String) (ts : Nat) : String :=
  username ++ ".wap_" ++ table_name ++ "_" ++ toString ts

/-- The body of the `try` block of `wap_ingest` (source lines 304-384):
write phase, audit phase, publish phase.  Returns the trace of client calls,
whether the isolation branch exists when the block exits, and either the
raised exception or the returned triple. -/
def tryPhase (c : ClientSpec) (bname ns tname on_success : String)
    (min_rows : Nat) (strict_quality : Bool) :
    List Op × Bool × Except WapError (String × Bool × Option DataQualityResult) :=
  -- line 311: assert not client.has_branch(branch_name)
  let tr : List Op := [.hasBranch bname]
  if c.branchExists0 then (tr, true, .error .collision)
  else
    -- line 314: client.create_branch(branch_name, from_ref="main")
    let tr := tr ++ [.createBranch bname "main"]
    if c.createBranchOk then
      -- lines 318-325: create namespace, tolerate "already exists"
      let tr := tr ++ [.createNamespace ns bname]
      if c.nsCreate = .errOther then (tr, true, .error .namespaceCreateFailed)
      else
        -- line 328: table must not already exist on the branch
        let tr := tr ++ [.hasTable tname ns bname]
        if c.tableExists then (tr, true, .error .preexistingTable)
        else
          -- line 335: client.create_table(...)
          let tr := tr ++ [.createTable tname ns bname]
          if c.createTableOk then
            -- line 344: client.import_data(...)
            let tr := tr ++ [.importData tname ns bname]
            if c.importOk then
              -- lines 353-359: audit phase
              let tr := tr ++ audit_queries.map .query
              let q := run_data_quality_checks c.env min_rows
              -- line 362: strict quality gate
              if strict_quality && !q.passed then
                (tr, true, .error (.qualityGate q.failed_checks))
              else
                -- lines 375-384: publish phase
                if on_success = "merge" then
                  let tr := tr ++ [.mergeBranch bname "main"]
                  if c.mergeOk then
                    let tr := tr ++ [.deleteBranch bname]
                    if c.deleteOk then (tr, false, .ok (bname, true, some q))
                    else (tr, true, .error .deleteFailed)
                  else (tr, true, .error .mergeFailed)
                else (tr, true, .ok (bname, true, some q))
            else (tr, true, .error .importFailed)
          else (tr, true, .error .tableCreateFailed)
    else (tr, false, .error .branchCreateFailed)

/-- `wap_ingest` (source lines 270-396): the `try` body wrapped in the
`except` recovery handler of lines 386-394.  On an exception: with
`on_failure == "delete"`, if the branch still exists it is deleted; a failure
of that `delete_branch` call itself propagates out of the `except` block in
place of the original exception (the final `raise` is never reached).
Otherwise the original exception is re-raised. -/
def wap_ingest (c : ClientSpec) (username table_name namespace_ : String)
    (on_success on_failure : String) (ts min_rows : Nat)
    (strict_quality : Bool) : RunResult :=
  let bname := wapBranchName username table_name ts
  let r := tryPhase c bname namespace_ table_name on_success min_rows
    strict_quality
  match r with
  | (tr, bex, .ok v) =>
    { trace := tr, primaryError := none, outcome := .ok v,
      branchExistsEnd := bex }
  | (tr, bex, .error e) =>
    if on_failure = "delete" then
      -- line 389: if client.has_branch(branch_name)
      let tr := tr ++ [.hasBranch bname]
      if bex then
        -- line 390: client.delete_branch(branch_name)
        let tr := tr ++ [.deleteBranch bname]
        if c.deleteOk then
          { trace := tr, primaryError := some e, outcome := .error e,
            branchExistsEnd := false }
        else
          { trace := tr, primaryError := some e,
            outcome := .error .deleteFailed, branchExistsEnd := true }
      else
        { trace := tr, primaryError := some e, outcome := .error e,
          branchExistsEnd := false }
    else
      { trace := tr, primaryError := some e, outcome := .error e,
        branchExistsEnd := bex }

/-! ### Helper lemmas: imperative append-loops as list concatenations -/

/-- The effect of one source loop that appends `f x` for each `x`:
`gather f [x1, …, xn] = f x1 ++ … ++ f xn`. -/
def gather (f : α → List β) : List α → List β
  | [] => []
  | x :: l => f x ++ gather f l

/-! ### Per-check findings, as produced by each loop iteration -/

/-- Check 1's contribution to `critical_failures` (lines 74-77). -/
def rowCountFailures (env : QueryEnv) (min_rows : Nat) : List Finding :=
  if env.rowCount < min_rows then [.rowCountLow env.rowCount min_rows] else []

/-- One tier-1 column's contribution to `critical_failures` (lines 101-102). -/
def tier1Finding (env : QueryEnv) (col : String) : List Finding :=
  if env.nullCount col > 0 then [.nullValues col (env.nullCount col)] else []

/-- One tier-2 column's contribution to `critical_failures` (lines 126-129). -/
def tier2CritFinding (env : QueryEnv) (col : String) : List Finding :=
  if env.nullCount col > 0 then
    if nullPctOf (env.nullCount col) env.rowCount > 5 then
      [.nullPct col (env.nullCount col)
        (nullPctOf (env.nullCount col) env.rowCount)]
    else []
  else []

/-- One tier-2 column's contribution to `warnings` (lines 131-132). -/
def tier2WarnFinding (env : QueryEnv) (col : String) : List Finding :=
  if env.nullCount col > 0 then
    if nullPctOf (env.nullCount col) env.rowCount > 5 then []
    else
      [.nullPct col (env.nullCount col)
        (nullPctOf (env.nullCount col) env.rowCount)]
  else []

/-- One tier-3 column's contribution to `warnings` (lines 157-159). -/
def tier3WarnFinding (env : QueryEnv) (col : String) : List Finding :=
  if env.nullCount col > 0 then
    [.nullPct col (env.nullCount col)
      (nullPctOf (env.nullCount col) env.rowCount)]
  else []

/-- One range check's contribution to `critical_failures` (lines 184-189);
skipped entirely when the column's min or max is null. -/
def rangeFinding (env : QueryEnv) (rc : String × ℚ × ℚ) : List Finding :=
  match env.minV rc.1, env.maxV rc.1 with
  | some mn, some mx =>
    if mn < rc.2.1 ∨ mx > rc.2.2 then
      [.outOfRange rc.1 rc.2.1 rc.2.2 mn mx]
    else []
  | _, _ => []

/-- One non-negativity check's contribution to `critical_failures`
(lines 216-217). -/
def negFinding (env : QueryEnv) (col : String) : List Finding :=
  if env.negCount col > 0 then [.negativeValues col (env.negCount col)] else []

/-- The division by `row_count` at source lines 127 and 158 is reached only
for a tier-2 or tier-3 column with a positive null count; this predicate
states that it is reached with a zero row count (Python would raise
`ZeroDivisionError`). -/
def divisionByZeroReached (env : QueryEnv) : Prop :=
  env.rowCount = 0 ∧
    ((∃ col ∈ tier2_columns, 0 < env.nullCount col) ∨
     (∃ col ∈ tier3_columns, 0 < env.nullCount col))

/-! ### Concrete inputs for witnesses and counterexamples -/

/-- A clean audit environment: plenty of rows, no nulls anywhere, all-null
min/max (range checks skipped), no negative values. -/
def envAllClean : QueryEnv :=
  { rowCount := 200000, nullCount := fun _ => 0,
    minV := fun _ => none, maxV := fun _ => none, negCount := fun _ => 0 }

/-- Clean except that the critical column `user_id` has 7 nulls. -/
def envUserIdNulls : QueryEnv :=
  { envAllClean with nullCount := fun c => if c = "user_id" then 7 else 0 }

/-- 20 rows with exactly one null in `perceived_stress_score`: a 5% null
ratio on an important-tier column. -/
def envTier2Pct5 : QueryEnv :=
  { rowCount := 20,
    nullCount := fun c => if c = "perceived_stress_score" then 1 else 0,
    minV := fun _ => none, maxV := fun _ => none, negCount := fun _ => 0 }

/-- 50 rows (below any reasonable floor) and 3 negative `followers_count`
values: the row-count check and a late check both fail. -/
def envShortAndNeg : QueryEnv :=
  { envAllClean with
    rowCount := 50
    negCount := fun c => if c = "followers_count" then 3 else 0 }

/-- A client for which every remote call succeeds and the audit is clean. -/
def clientAllOk : ClientSpec :=
  { branchExists0 := false, createBranchOk := true, nsCreate := .ok,
    tableExists := false, createTableOk := true, importOk := true,
    env := envAllClean, mergeOk := true, deleteOk := true }

/-- All-ok client except the derived branch name already exists. -/
def clientCollision : ClientSpec := { clientAllOk with branchExists0 := true }

/-- All-ok client except the merge into main fails. -/
def clientMergeFails : ClientSpec := { clientAllOk with mergeOk := false }

/-- Client whose audit fails (nulls in `user_id`) and whose branch deletion
calls fail. -/
def clientQualFailsDeleteFails : ClientSpec :=
  { clientAllOk with env := envUserIdNulls, deleteOk := false }

/-- Client whose audit fails (nulls in `user_id`); everything else succeeds. -/
def clientQualFails : ClientSpec := { clientAllOk with env := envUserIdNulls }

/-- All-ok client except the target table already exists on the fresh
branch. -/
def clientTableExists : ClientSpec := { clientAllOk with tableExists := true }

/-- Clean audit environment with only 50 rows. -/
def envLowRows : QueryEnv := { envAllClean with rowCount := 50 }

theorem gather_nil (f : α → List β) : gather f [] = [] := rfl

theorem gather_cons (f : α → List β) (x : α) (l : List α) :
    gather f (x :: l) = f x ++ gather f l := rfl

theorem mem_gather {f : α → List β} {l : List α} {b : β} :
    b ∈ gather f l ↔ ∃ a ∈ l, b ∈ f a := by
  induction l with
  | nil => simp [gather]
  | cons x l ih => simp [gather, ih]

theorem gather_eq_nil {f : α → List β} {l : List α} :
    gather f l = [] ↔ ∀ a ∈ l, f a = [] := by
  induction l with
  | nil => simp [gather]
  | cons x l ih => simp [gather, ih]

/-- A `foldl` whose body appends `f x` to the accumulator equals the initial
accumulator followed by `gather f l`. -/
theorem foldl_eq_append_gather (g : List β → α → List β) (f : α → List β)
    (hg : ∀ acc x, g acc x = acc ++ f x) :
    ∀ (l : List α) (acc : List β), l.foldl g acc = acc ++ gather f l := by
  intro l
  induction l with
  | nil => intro acc; simp [gather]
  | cons x l ih =>
    intro acc
    rw [List.foldl_cons, hg, ih, gather_cons, List.append_assoc]

/-- Pair version for the tier-2 loop, which appends to the critical list or
to the warning list depending on the escalation threshold. -/
theorem foldl_pair_eq_append_gather
    (g : List β × List β → α → List β × List β) (f1 f2 : α → List β)
    (hg : ∀ p x, g p x = (p.1 ++ f1 x, p.2 ++ f2 x)) :
    ∀ (l : List α) (p : List β × List β),
      l.foldl g p = (p.1 ++ gather f1 l, p.2 ++ gather f2 l) := by
  intro l
  induction l with
  | nil => intro p; simp [gather]
  | cons x l ih =>
    intro p
    rw [List.foldl_cons, hg, ih]
    simp [gather_cons, List.append_assoc]

/-- The audit's failure and warning lists decompose into the per-group
contributions, concatenated in check-declaration order. -/
theorem run_decomp (env : QueryEnv) (m : Nat) :
    (run_data_quality_checks env m).critical_failures =
      rowCountFailures env m ++ gather (tier1Finding env) tier1_columns
        ++ gather (tier2CritFinding env) tier2_columns
        ++ gather (rangeFinding env) range_checks
        ++ gather (negFinding env) non_negative_columns
    ∧ (run_data_quality_checks env m).warnings =
      gather (tier2WarnFinding env) tier2_columns
        ++ gather (tier3WarnFinding env) tier3_columns := by
  have hg1 : ∀ (acc : List Finding) (col : String),
      (if env.nullCount col > 0 then
        acc ++ [Finding.nullValues col (env.nullCount col)] else acc)
        = acc ++ tier1Finding env col := by
    intro acc col
    by_cases h : env.nullCount col > 0 <;> simp [tier1Finding, h]
  have hg2 : ∀ (p : List Finding × List Finding) (col : String),
      (if env.nullCount col > 0 then
        if nullPctOf (env.nullCount col) env.rowCount > 5 then
          (p.1 ++ [Finding.nullPct col (env.nullCount col)
            (nullPctOf (env.nullCount col) env.rowCount)], p.2)
        else
          (p.1, p.2 ++ [Finding.nullPct col (env.nullCount col)
            (nullPctOf (env.nullCount col) env.rowCount)])
      else p)
        = (p.1 ++ tier2CritFinding env col, p.2 ++ tier2WarnFinding env col) := by
    intro p col
    by_cases h : env.nullCount col > 0 <;>
      by_cases h5 : nullPctOf (env.nullCount col) env.rowCount > 5 <;>
      simp [tier2CritFinding, tier2WarnFinding, h, h5]
  have hg3 : ∀ (acc : List Finding) (col : String),
      (if env.nullCount col > 0 then
        acc ++ [Finding.nullPct col (env.nullCount col)
          (nullPctOf (env.nullCount col) env.rowCount)] else acc)
        = acc ++ tier3WarnFinding env col := by
    intro acc col
    by_cases h : env.nullCount col > 0 <;> simp [tier3WarnFinding, h]
  have hg4 : ∀ (acc : List Finding) (rc : String × ℚ × ℚ),
      (match env.minV rc.1, env.maxV rc.1 with
      | some mn, some mx =>
        if mn < rc.2.1 ∨ mx > rc.2.2 then
          acc ++ [Finding.outOfRange rc.1 rc.2.1 rc.2.2 mn mx]
        else acc
      | _, _ => acc)
        = acc ++ rangeFinding env rc := by
    intro acc rc
    rcases hmn : env.minV rc.1 with _ | mn <;>
      rcases hmx : env.maxV rc.1 with _ | mx <;>
      simp only [rangeFinding, hmn, hmx, List.append_nil]
    by_cases h : mn < rc.2.1 ∨ mx > rc.2.2 <;> simp [h]
  have hg5 : ∀ (acc : List Finding) (col : String),
      (if env.negCount col > 0 then
        acc ++ [Finding.negativeValues col (env.negCount col)] else acc)
        = acc ++ negFinding env col := by
    intro acc col
    by_cases h : env.negCount col > 0 <;> simp [negFinding, h]
  simp only [run_data_quality_checks,
    foldl_eq_append_gather _ _ hg1, foldl_pair_eq_append_gather _ _ _ hg2,
    foldl_eq_append_gather _ _ hg3, foldl_eq_append_gather _ _ hg4,
    foldl_eq_append_gather _ _ hg5]
  constructor
  · simp [rowCountFailures, List.append_assoc]
  · simp

/-- `passed` is computed from emptiness of the critical-failure list
(source line 254). -/
theorem run_passed_eq (env : QueryEnv) (m : Nat) :
    (run_data_quality_checks env m).passed =
      ((run_data_quality_checks env m).critical_failures.length == 0) := rfl

/-- `failed_checks` is the number of critical failures (source line 233). -/
theorem run_failed_eq (env : QueryEnv) (m : Nat) :
    (run_data_quality_checks env m).failed_checks =
      (run_data_quality_checks env m).critical_failures.length := rfl

theorem mem_rowCountFailures {env : QueryEnv} {m : Nat} {f : Finding} :
    f ∈ rowCountFailures env m ↔
      env.rowCount < m ∧ f = Finding.rowCountLow env.rowCount m := by
  by_cases h : env.rowCount < m <;> simp [rowCountFailures, h]

theorem mem_tier1Finding {env : QueryEnv} {col : String} {f : Finding} :
    f ∈ tier1Finding env col ↔
      0 < env.nullCount col ∧ f = Finding.nullValues col (env.nullCount col) := by
  by_cases h : env.nullCount col > 0 <;> simp [tier1Finding, h]

theorem mem_tier2CritFinding {env : QueryEnv} {col : String} {f : Finding} :
    f ∈ tier2CritFinding env col ↔
      0 < env.nullCount col
        ∧ nullPctOf (env.nullCount col) env.rowCount > 5
        ∧ f = Finding.nullPct col (env.nullCount col)
            (nullPctOf (env.nullCount col) env.rowCount) := by
  by_cases h : env.nullCount col > 0 <;>
    by_cases h5 : nullPctOf (env.nullCount col) env.rowCount > 5 <;>
    simp [tier2CritFinding, h, h5]

theorem mem_tier2WarnFinding {env : QueryEnv} {col : String} {f : Finding} :
    f ∈ tier2WarnFinding env col ↔
      0 < env.nullCount col
        ∧ ¬ nullPctOf (env.nullCount col) env.rowCount > 5
        ∧ f = Finding.nullPct col (env.nullCount col)
            (nullPctOf (env.nullCount col) env.rowCount) := by
  by_cases h : env.nullCount col > 0 <;>
    by_cases h5 : nullPctOf (env.nullCount col) env.rowCount > 5 <;>
    simp [tier2WarnFinding, h, h5]

theorem mem_tier3WarnFinding {env : QueryEnv} {col : String} {f : Finding} :
    f ∈ tier3WarnFinding env col ↔
      0 < env.nullCount col
        ∧ f = Finding.nullPct col (env.nullCount col)
            (nullPctOf (env.nullCount col) env.rowCount) := by
  by_cases h : env.nullCount col > 0 <;> simp [tier3WarnFinding, h]

theorem mem_rangeFinding {env : QueryEnv} {rc : String × ℚ × ℚ} {f : Finding} :
    f ∈ rangeFinding env rc ↔
      ∃ mn mx, env.minV rc.1 = some mn ∧ env.maxV rc.1 = some mx
        ∧ (mn < rc.2.1 ∨ mx > rc.2.2)
        ∧ f = Finding.outOfRange rc.1 rc.2.1 rc.2.2 mn mx := by
  rcases hmn : env.minV rc.1 with _ | mn <;>
    rcases hmx : env.maxV rc.1 with _ | mx
  · simp [rangeFinding, hmn, hmx]
  · simp [rangeFinding, hmn, hmx]
  · simp [rangeFinding, hmn, hmx]
  · by_cases h : mn < rc.2.1 ∨ mx > rc.2.2 <;>
      simp [rangeFinding, hmn, hmx, h]

theorem mem_negFinding {env : QueryEnv} {col : String} {f : Finding} :
    f ∈ negFinding env col ↔
      0 < env.negCount col ∧ f = Finding.negativeValues col (env.negCount col) := by
  by_cases h : env.negCount col > 0 <;> simp [negFinding, h]

theorem length_beq_zero_eq_false_iff (l : List Finding) :
    ((l.length == 0) = false) ↔ ∃ f, f ∈ l := by
  cases l <;> simp

/-- C2: the verdict's `passed` flag is false iff at least one critical-tier
outcome failed: a row count below the floor, a nonzero null count on a
critical-tier column, an important-tier null percentage strictly above 5, a
range violation (on a column whose min and max are non-null), or a positive
negative-value count.  Advisory-tier nulls, and important-tier nulls at or
below the threshold, produce warnings only. -/
theorem quality_verdict_passed_iff (env : QueryEnv) (m : Nat) :
    ((run_data_quality_checks env m).passed = false ↔
      env.rowCount < m
      ∨ (∃ col ∈ tier1_columns, 0 < env.nullCount col)
      ∨ (∃ col ∈ tier2_columns, 0 < env.nullCount col ∧
          nullPctOf (env.nullCount col) env.rowCount > 5)
      ∨ (∃ rc ∈ range_checks, ∃ mn mx, env.minV rc.1 = some mn ∧
          env.maxV rc.1 = some mx ∧ (mn < rc.2.1 ∨ mx > rc.2.2))
      ∨ (∃ col ∈ non_negative_columns, 0 < env.negCount col))
    ∧ (∀ col ∈ tier2_columns, 0 < env.nullCount col →
        ¬ nullPctOf (env.nullCount col) env.rowCount > 5 →
        Finding.nullPct col (env.nullCount col)
            (nullPctOf (env.nullCount col) env.rowCount)
          ∈ (run_data_quality_checks env m).warnings)
    ∧ (∀ col ∈ tier3_columns, 0 < env.nullCount col →
        Finding.nullPct col (env.nullCount col)
            (nullPctOf (env.nullCount col) env.rowCount)
          ∈ (run_data_quality_checks env m).warnings) := by
  obtain ⟨hc, hw⟩ := run_decomp env m
  refine ⟨?_, ?_, ?_⟩
  · rw [run_passed_eq, hc, length_beq_zero_eq_false_iff]
    simp only [List.mem_append, mem_gather, mem_rowCountFailures,
      mem_tier1Finding, mem_tier2CritFinding, mem_rangeFinding,
      mem_negFinding]
    constructor
    · rintro ⟨f, hf⟩
      rcases hf with ((((⟨h, -⟩ | ⟨a, ha, h, -⟩) | ⟨a, ha, h, h5, -⟩) |
          ⟨a, ha, mn, mx, hmn, hmx, hv, -⟩) | ⟨a, ha, h, -⟩)
      · exact Or.inl h
      · exact Or.inr (Or.inl ⟨a, ha, h⟩)
      · exact Or.inr (Or.inr (Or.inl ⟨a, ha, h, h5⟩))
      · exact Or.inr (Or.inr (Or.inr (Or.inl ⟨a, ha, mn, mx, hmn, hmx, hv⟩)))
      · exact Or.inr (Or.inr (Or.inr (Or.inr ⟨a, ha, h⟩)))
    · rintro (h | ⟨a, ha, h⟩ | ⟨a, ha, h, h5⟩ |
          ⟨a, ha, mn, mx, hmn, hmx, hv⟩ | ⟨a, ha, h⟩)
      · exact ⟨_, Or.inl (Or.inl (Or.inl (Or.inl ⟨h, rfl⟩)))⟩
      · exact ⟨_, Or.inl (Or.inl (Or.inl (Or.inr ⟨a, ha, h, rfl⟩)))⟩
      · exact ⟨_, Or.inl (Or.inl (Or.inr ⟨a, ha, h, h5, rfl⟩))⟩
      · exact ⟨_, Or.inl (Or.inr ⟨a, ha, mn, mx, hmn, hmx, hv, rfl⟩)⟩
      · exact ⟨_, Or.inr ⟨a, ha, h, rfl⟩⟩
  · intro col hcol h0 h5
    rw [hw]
    exact List.mem_append_left _
      (mem_gather.mpr ⟨col, hcol, mem_tier2WarnFinding.mpr ⟨h0, h5, rfl⟩⟩)
  · intro col hcol h0
    rw [hw]
    exact List.mem_append_right _
      (mem_gather.mpr ⟨col, hcol, mem_tier3WarnFinding.mpr ⟨h0, rfl⟩⟩)

theorem not_mem_tier3_of_mem_tier2 {col : String} (h : col ∈ tier2_columns) :
    col ∉ tier3_columns := by
  intro h3
  simp only [tier2_columns, List.mem_cons, List.not_mem_nil, or_false] at h
  rcases h with rfl | rfl | rfl <;> simp [tier3_columns] at h3

/-- C6: for an important-tier column with a nonzero null count, a null
percentage of exactly 5 is recorded as a warning and not escalated, while a
percentage strictly above 5 is escalated to a critical failure (strict `>`,
source line 128). -/
theorem tier2_escalation_boundary (env : QueryEnv) (m : Nat) (col : String)
    (h1 : col ∈ tier2_columns) (h2 : 0 < env.nullCount col) :
    (nullPctOf (env.nullCount col) env.rowCount = 5 →
      Finding.nullPct col (env.nullCount col)
          (nullPctOf (env.nullCount col) env.rowCount)
        ∈ (run_data_quality_checks env m).warnings
      ∧ Finding.nullPct col (env.nullCount col)
          (nullPctOf (env.nullCount col) env.rowCount)
        ∉ (run_data_quality_checks env m).critical_failures)
    ∧ (nullPctOf (env.nullCount col) env.rowCount > 5 →
      Finding.nullPct col (env.nullCount col)
          (nullPctOf (env.nullCount col) env.rowCount)
        ∈ (run_data_quality_checks env m).critical_failures
      ∧ Finding.nullPct col (env.nullCount col)
          (nullPctOf (env.nullCount col) env.rowCount)
        ∉ (run_data_quality_checks env m).warnings) := by
  obtain ⟨hc, hw⟩ := run_decomp env m
  constructor
  · intro h5
    have hn5 : ¬ nullPctOf (env.nullCount col) env.rowCount > 5 := by
      rw [h5]; exact lt_irrefl 5
    constructor
    · rw [hw]
      exact List.mem_append_left _
        (mem_gather.mpr ⟨col, h1, mem_tier2WarnFinding.mpr ⟨h2, hn5, rfl⟩⟩)
    · rw [hc]
      intro hmem
      simp only [List.mem_append, mem_gather, mem_rowCountFailures,
        mem_tier1Finding, mem_tier2CritFinding, mem_rangeFinding,
        mem_negFinding] at hmem
      rcases hmem with ((((⟨-, heq⟩ | ⟨a, -, -, heq⟩) |
          ⟨a, -, -, h5', heq⟩) | ⟨a, -, mn, mx, -, -, -, heq⟩) |
          ⟨a, -, -, heq⟩)
      · exact Finding.noConfusion heq
      · exact Finding.noConfusion heq
      · injection heq with e1 e2 e3
        subst e1
        rw [← e3, h5] at h5'
        exact lt_irrefl 5 h5'
      · exact Finding.noConfusion heq
      · exact Finding.noConfusion heq
  · intro h5
    constructor
    · rw [hc]
      exact List.mem_append_left _ (List.mem_append_left _
        (List.mem_append_right _
          (mem_gather.mpr ⟨col, h1, mem_tier2CritFinding.mpr ⟨h2, h5, rfl⟩⟩)))
    · rw [hw]
      intro hmem
      simp only [List.mem_append, mem_gather, mem_tier2WarnFinding,
        mem_tier3WarnFinding] at hmem
      rcases hmem with ⟨a, -, -, hn5, heq⟩ | ⟨a, ha3, -, heq⟩
      · injection heq with e1 e2 e3
        subst e1
        rw [← e3] at hn5
        exact hn5 h5
      · injection heq with e1 e2 e3
        subst e1
        exact not_mem_tier3_of_mem_tier2 h1 ha3

/-- C7: the gate aggregates and never short-circuits: the critical failures
are exactly the concatenation of the six check groups' findings in
declaration order, the warnings likewise, and even when the row-count check
fails critically, the findings of the later checks still appear in the
verdict. -/
theorem audit_aggregates_all_checks (env : QueryEnv) (m : Nat) :
    ((run_data_quality_checks env m).critical_failures =
      rowCountFailures env m ++ gather (tier1Finding env) tier1_columns
        ++ gather (tier2CritFinding env) tier2_columns
        ++ gather (rangeFinding env) range_checks
        ++ gather (negFinding env) non_negative_columns)
    ∧ ((run_data_quality_checks env m).warnings =
      gather (tier2WarnFinding env) tier2_columns
        ++ gather (tier3WarnFinding env) tier3_columns)
    ∧ (env.rowCount < m →
        (∀ col ∈ non_negative_columns, 0 < env.negCount col →
          Finding.negativeValues col (env.negCount col) ∈
            (run_data_quality_checks env m).critical_failures)
        ∧ (∀ col ∈ tier3_columns, 0 < env.nullCount col →
          Finding.nullPct col (env.nullCount col)
              (nullPctOf (env.nullCount col) env.rowCount) ∈
            (run_data_quality_checks env m).warnings)) := by
  obtain ⟨hc, hw⟩ := run_decomp env m
  refine ⟨hc, hw, fun _ => ⟨?_, ?_⟩⟩
  · intro col hcol h0
    rw [hc]
    exact List.mem_append_right _
      (mem_gather.mpr ⟨col, hcol, mem_negFinding.mpr ⟨h0, rfl⟩⟩)
  · intro col hcol h0
    rw [hw]
    exact List.mem_append_right _
      (mem_gather.mpr ⟨col, hcol, mem_tier3WarnFinding.mpr ⟨h0, rfl⟩⟩)

/-- C9: when every column's null count is bounded by the row count (as is
the case for the SQL result `COUNT(*) - COUNT(col)`), the null-percentage
division is never reached with a zero row count, so the gate is total even
on an empty table. -/
theorem no_division_by_zero (env : QueryEnv)
    (h : ∀ col, env.nullCount col ≤ env.rowCount) :
    ¬ divisionByZeroReached env := by
  rintro ⟨h0, ⟨col, -, hpos⟩ | ⟨col, -, hpos⟩⟩ <;>
    · have := h col
      omega

/-- C10: the verdict's `total_checks` is the constant 21,
`passed_checks` is 21 minus the number of critical failures (warnings are
never subtracted), `failed_checks` counts the critical failures, and a range
check whose column has a null minimum is skipped: it contributes no critical
failure (and is hence counted among the passed checks). -/
theorem verdict_check_counts (env : QueryEnv) (m : Nat) :
    (run_data_quality_checks env m).total_checks = 21
    ∧ (run_data_quality_checks env m).passed_checks =
        21 - (run_data_quality_checks env m).critical_failures.length
    ∧ (run_data_quality_checks env m).failed_checks =
        (run_data_quality_checks env m).critical_failures.length
    ∧ (∀ rc ∈ range_checks, env.minV rc.1 = none →
        ∀ lo hi mn mx, Finding.outOfRange rc.1 lo hi mn mx ∉
          (run_data_quality_checks env m).critical_failures) := by
  refine ⟨rfl, rfl, rfl, ?_⟩
  intro rc hrc hnone lo hi mn mx hmem
  rw [(run_decomp env m).1] at hmem
  simp only [List.mem_append, mem_gather, mem_rowCountFailures,
    mem_tier1Finding, mem_tier2CritFinding, mem_rangeFinding,
    mem_negFinding] at hmem
  rcases hmem with ((((⟨-, heq⟩ | ⟨a, -, -, heq⟩) |
      ⟨a, -, -, -, heq⟩) | ⟨a, -, mn', mx', hmn, -, -, heq⟩) |
      ⟨a, -, -, heq⟩)
  · exact Finding.noConfusion heq
  · exact Finding.noConfusion heq
  · exact Finding.noConfusion heq
  · injection heq with e1 e2 e3 e4 e5
    rw [← e1, hnone] at hmn
    exact Option.noConfusion hmn
  · exact Finding.noConfusion heq

/-- C1: with `strict_quality = true` and a failing verdict, the workflow
raises the quality-gate error (carrying the failure count), no merge call
ever appears in the trace — whatever the `on_success` policy — and an error
propagates to the caller. -/
theorem strict_quality_gate_blocks_merge (c : ClientSpec)
    (username tname ns on_success on_failure : String) (ts m : Nat)
    (h1 : c.branchExists0 = false) (h2 : c.createBranchOk = true)
    (h3 : c.nsCreate ≠ NsCreateResult.errOther)
    (h4 : c.tableExists = false) (h5 : c.createTableOk = true)
    (h6 : c.importOk = true)
    (h7 : (run_data_quality_checks c.env m).passed = false) :
    (wap_ingest c username tname ns on_success on_failure ts m true).primaryError
        = some (WapError.qualityGate
            (run_data_quality_checks c.env m).failed_checks)
    ∧ (∀ s t, Op.mergeBranch s t ∉
        (wap_ingest c username tname ns on_success on_failure ts m true).trace)
    ∧ (∃ e, (wap_ingest c username tname ns on_success on_failure ts m true).outcome
        = Except.error e) := by
  by_cases hf : on_failure = "delete" <;> by_cases hd : c.deleteOk = true <;>
    simp [wap_ingest, tryPhase, h1, h2, h4, h5, h6, if_neg h3, h7, hf, hd,
      audit_queries, tier1_columns, tier2_columns, tier3_columns,
      range_checks, non_negative_columns]

/-- C8: when the target table already exists on the fresh isolation branch,
the provisioning step fails with the pre-existing-table error before any
table creation or import is attempted; conversely, creation and import are
attempted only when the existence check found no table. -/
theorem preexisting_table_guard (c : ClientSpec)
    (username tname ns on_success on_failure : String) (ts m : Nat)
    (strict : Bool)
    (h1 : c.branchExists0 = false) (h2 : c.createBranchOk = true)
    (h3 : c.nsCreate ≠ NsCreateResult.errOther) :
    (c.tableExists = true →
      (wap_ingest c username tname ns on_success on_failure ts m strict).primaryError
          = some WapError.preexistingTable
      ∧ (∀ t n b, Op.createTable t n b ∉
          (wap_ingest c username tname ns on_success on_failure ts m strict).trace)
      ∧ (∀ t n b, Op.importData t n b ∉
          (wap_ingest c username tname ns on_success on_failure ts m strict).trace))
    ∧ (∀ t n b, Op.createTable t n b ∈
        (wap_ingest c username tname ns on_success on_failure ts m strict).trace →
        c.tableExists = false)
    ∧ (∀ t n b, Op.importData t n b ∈
        (wap_ingest c username tname ns on_success on_failure ts m strict).trace →
        c.tableExists = false) := by
  by_cases ht : c.tableExists = true
  · by_cases hf : on_failure = "delete" <;> by_cases hd : c.deleteOk = true <;>
      simp [wap_ingest, tryPhase, h1, h2, if_neg h3, ht, hf, hd]
  · have ht' : c.tableExists = false := by
      revert ht; cases c.tableExists <;> simp
    exact ⟨fun h => absurd h ht, fun _ _ _ _ => ht', fun _ _ _ _ => ht'⟩

/-- C5 counterexample: on a branch-name collision with
`on_failure = "delete"`, the recovery handler of lines 386-394 deletes the
pre-existing branch — a store mutation — so "no mutation of any store state
for both policies" fails. -/
theorem collision_deletes_preexisting_branch :
    (wap_ingest clientCollision "u" "t" "social" "inspect" "delete" 5
        100000 true).primaryError = some WapError.collision
    ∧ Op.deleteBranch (wapBranchName "u" "t" 5) ∈
        (wap_ingest clientCollision "u" "t" "social" "inspect" "delete" 5
          100000 true).trace
    ∧ (Op.deleteBranch (wapBranchName "u" "t" 5)).isMutation = true := by
  decide

/-- C5 amended: a collision raises the collision error; with
`on_failure ≠ "delete"` no mutating call is issued at all, and in every case
the only possible mutation is the recovery handler's deletion of the
pre-existing branch. -/
theorem collision_error_recovery (c : ClientSpec)
    (username tname ns on_success on_failure : String) (ts m : Nat)
    (strict : Bool) (h : c.branchExists0 = true) :
    (wap_ingest c username tname ns on_success on_failure ts m strict).primaryError
        = some WapError.collision
    ∧ (on_failure ≠ "delete" →
        ∀ op ∈ (wap_ingest c username tname ns on_success on_failure ts m
          strict).trace, op.isMutation = false)
    ∧ (∀ op ∈ (wap_ingest c username tname ns on_success on_failure ts m
          strict).trace, op.isMutation = true →
        op = Op.deleteBranch (wapBranchName username tname ts)) := by
  by_cases hf : on_failure = "delete" <;> by_cases hd : c.deleteOk = true <;>
    simp [wap_ingest, tryPhase, h, hf, hd, Op.isMutation]

/-- C3 counterexample: when the merge into main fails and
`on_failure = "delete"`, the recovery handler deletes the isolation branch,
so "the branch is never deleted regardless of the failure policy" fails. -/
theorem merge_failure_deletes_branch :
    (wap_ingest clientMergeFails "u" "t" "social" "merge" "delete" 5
        100000 true).primaryError = some WapError.mergeFailed
    ∧ Op.deleteBranch (wapBranchName "u" "t" 5) ∈
        (wap_ingest clientMergeFails "u" "t" "social" "merge" "delete" 5
          100000 true).trace
    ∧ (wap_ingest clientMergeFails "u" "t" "social" "merge" "delete" 5
        100000 true).branchExistsEnd = false := by
  decide

/-- C3 amended: a merge failure is fatal (the merge error is raised and an
error propagates to the caller); the isolation branch is preserved and no
deletion is issued when `on_failure ≠ "delete"`, but with
`on_failure = "delete"` the recovery handler does delete the branch. -/
theorem merge_failure_recovery (c : ClientSpec)
    (username tname ns on_failure : String) (ts m : Nat) (strict : Bool)
    (h1 : c.branchExists0 = false) (h2 : c.createBranchOk = true)
    (h3 : c.nsCreate ≠ NsCreateResult.errOther)
    (h4 : c.tableExists = false) (h5 : c.createTableOk = true)
    (h6 : c.importOk = true)
    (h7 : (strict && !(run_data_quality_checks c.env m).passed) = false)
    (h8 : c.mergeOk = false) :
    (wap_ingest c username tname ns "merge" on_failure ts m strict).primaryError
        = some WapError.mergeFailed
    ∧ (∃ e, (wap_ingest c username tname ns "merge" on_failure ts m
        strict).outcome = Except.error e)
    ∧ (on_failure ≠ "delete" →
        (∀ b, Op.deleteBranch b ∉
          (wap_ingest c username tname ns "merge" on_failure ts m strict).trace)
        ∧ (wap_ingest c username tname ns "merge" on_failure ts m
            strict).branchExistsEnd = true)
    ∧ (on_failure = "delete" →
        Op.deleteBranch (wapBranchName username tname ts) ∈
          (wap_ingest c username tname ns "merge" on_failure ts m
            strict).trace) := by
  by_cases hf : on_failure = "delete" <;> by_cases hd : c.deleteOk = true <;>
    simp [wap_ingest, tryPhase, h1, h2, h4, h5, h6, if_neg h3, h7, h8, hf, hd]

/-- C4 counterexample: the original error is the quality-gate failure, but
because the recovery deletion fails, the deletion error propagates out of
the `except` block in its place: the caller does not receive the original
error. -/
theorem cleanup_failure_masks_original :
    (wap_ingest clientQualFailsDeleteFails "u" "t" "social" "inspect"
        "delete" 5 100000 true).primaryError
      = some (WapError.qualityGate 1)
    ∧ (wap_ingest clientQualFailsDeleteFails "u" "t" "social" "inspect"
        "delete" 5 100000 true).outcome
      = Except.error WapError.deleteFailed
    ∧ WapError.deleteFailed ≠ WapError.qualityGate 1 := by
  refine ⟨by decide, rfl, by decide⟩

/-- The `try` body has four kinds of exits: branch creation failed (branch
absent), success with the branch deleted (merge path), success with the
branch kept (inspect path), or any other error with the branch still
present. -/
theorem tryPhase_cases (c : ClientSpec) (b ns t os : String) (m : Nat)
    (s : Bool) :
    (∃ tr, tryPhase c b ns t os m s =
        (tr, false, Except.error WapError.branchCreateFailed))
    ∨ (∃ tr v, tryPhase c b ns t os m s = (tr, false, Except.ok v))
    ∨ (∃ tr v, tryPhase c b ns t os m s = (tr, true, Except.ok v))
    ∨ (∃ tr e, e ≠ WapError.branchCreateFailed ∧
        tryPhase c b ns t os m s = (tr, true, Except.error e)) := by
  by_cases hb : c.branchExists0 = true
  case pos => simp [tryPhase, hb]
  by_cases hcb : c.createBranchOk = true
  case neg => simp [tryPhase, hb, hcb]
  by_cases hns : c.nsCreate = NsCreateResult.errOther
  case pos => simp [tryPhase, hb, hcb, hns]
  by_cases ht : c.tableExists = true
  case pos => simp [tryPhase, hb, hcb, hns, ht]
  by_cases hct : c.createTableOk = true
  case neg => simp [tryPhase, hb, hcb, hns, ht, hct]
  by_cases him : c.importOk = true
  case neg => simp [tryPhase, hb, hcb, hns, ht, hct, him]
  by_cases hq : s = true ∧ (run_data_quality_checks c.env m).passed = false
  case pos => simp [tryPhase, hb, hcb, hns, ht, hct, him, hq]
  by_cases hos : os = "merge"
  case neg => simp [tryPhase, hb, hcb, hns, ht, hct, him, hq, hos]
  by_cases hm : c.mergeOk = true
  case neg => simp [tryPhase, hb, hcb, hns, ht, hct, him, hq, hos, hm]
  by_cases hd : c.deleteOk = true
  case neg => simp [tryPhase, hb, hcb, hns, ht, hct, him, hq, hos, hm, hd]
  simp [tryPhase, hb, hcb, hns, ht, hct, him, hq, hos, hm, hd]

/-- C4 amended: when the recovery deletion fails, the deletion failure is
escalated: it reaches the caller in place of the original error (for every
original error raised after branch creation succeeded). -/
theorem cleanup_failure_escalates (c : ClientSpec)
    (username tname ns on_success : String) (ts m : Nat) (strict : Bool)
    (e : WapError) (hd : c.deleteOk = false)
    (he : (wap_ingest c username tname ns on_success "delete" ts m
        strict).primaryError = some e)
    (hne : e ≠ WapError.branchCreateFailed) :
    (wap_ingest c username tname ns on_success "delete" ts m strict).outcome
      = Except.error WapError.deleteFailed := by
  rcases tryPhase_cases c (wapBranchName username tname ts) ns tname
      on_success m strict with
    ⟨tr, hT⟩ | ⟨tr, v, hT⟩ | ⟨tr, v, hT⟩ | ⟨tr, e', hne', hT⟩
  · simp only [wap_ingest, hT] at he
    simp at he
    exact absurd he.symm hne
  · simp only [wap_ingest, hT] at he
    simp at he
  · simp only [wap_ingest, hT] at he
    simp at he
  · simp [wap_ingest, hT, hd]

/-! ### Witnesses -/

theorem quality_verdict_passed_iff_witness :
    (run_data_quality_checks envLowRows 100000).passed = false :=
  (quality_verdict_passed_iff envLowRows 100000).1.mpr (Or.inl (by decide))

theorem tier2_escalation_boundary_witness :
    0 < envTier2Pct5.nullCount "perceived_stress_score" ∧
    Finding.nullPct "perceived_stress_score"
        (envTier2Pct5.nullCount "perceived_stress_score")
        (nullPctOf (envTier2Pct5.nullCount "perceived_stress_score")
          envTier2Pct5.rowCount)
      ∈ (run_data_quality_checks envTier2Pct5 10).warnings :=
  ⟨by decide,
   ((tier2_escalation_boundary envTier2Pct5 10 "perceived_stress_score"
      (by decide) (by decide)).1
      (by show nullPctOf 1 20 = 5; norm_num [nullPctOf])).1⟩

theorem audit_aggregates_all_checks_witness :
    Finding.negativeValues "followers_count"
        (envShortAndNeg.negCount "followers_count")
      ∈ (run_data_quality_checks envShortAndNeg 100000).critical_failures :=
  ((audit_aggregates_all_checks envShortAndNeg 100000).2.2 (by decide)).1
    "followers_count" (by decide) (by decide)

theorem no_division_by_zero_witness : ¬ divisionByZeroReached envAllClean :=
  no_division_by_zero envAllClean (fun _ => Nat.zero_le _)

theorem verdict_check_counts_witness :
    (run_data_quality_checks envAllClean 100000).total_checks = 21 ∧
    (∀ lo hi mn mx, Finding.outOfRange "age" lo hi mn mx ∉
        (run_data_quality_checks envAllClean 100000).critical_failures) :=
  ⟨(verdict_check_counts envAllClean 100000).1,
   (verdict_check_counts envAllClean 100000).2.2.2 ("age", 13, 120)
      (List.mem_cons_of_mem _ (List.mem_cons_self _ _)) rfl⟩

theorem strict_quality_gate_blocks_merge_witness :
    (wap_ingest clientQualFails "u" "t" "social" "merge" "keep" 5 100000
        true).primaryError = some (WapError.qualityGate
          (run_data_quality_checks clientQualFails.env 100000).failed_checks) :=
  (strict_quality_gate_blocks_merge clientQualFails "u" "t" "social" "merge"
    "keep" 5 100000 rfl rfl (by decide) rfl rfl rfl (by decide)).1

theorem preexisting_table_guard_witness :
    (wap_ingest clientTableExists "u" "t" "social" "inspect" "keep" 5
        100000 true).primaryError = some WapError.preexistingTable :=
  ((preexisting_table_guard clientTableExists "u" "t" "social" "inspect"
    "keep" 5 100000 true rfl rfl (by decide)).1 rfl).1

theorem collision_error_recovery_witness :
    (wap_ingest clientCollision "u" "t" "social" "inspect" "keep" 5 100000
        true).primaryError = some WapError.collision :=
  (collision_error_recovery clientCollision "u" "t" "social" "inspect"
    "keep" 5 100000 true rfl).1

theorem merge_failure_recovery_witness :
    (wap_ingest clientMergeFails "u" "t" "social" "merge" "keep" 5 100000
        true).primaryError = some WapError.mergeFailed :=
  (merge_failure_recovery clientMergeFails "u" "t" "social" "keep" 5 100000
    true rfl rfl (by decide) rfl rfl rfl (by decide) rfl).1

theorem cleanup_failure_escalates_witness :
    (wap_ingest clientQualFailsDeleteFails "u" "t" "social" "inspect"
        "delete" 5 100000 true).outcome = Except.error WapError.deleteFailed :=
  cleanup_failure_escalates clientQualFailsDeleteFails "u" "t" "social"
    "inspect" 5 100000 true (WapError.qualityGate 1) rfl (by decide)
    (by decide)

end Wap
